import Mathlib

/-!
# Verification of the rye lock-file artifact reconciliation engine

Shallow embedding of `src/lib/modules/manager/pep621/processors/rye.ts`:
the dependency classifier (`generateCMDs` / `addPackageToCMDRecord`) and the
reconciliation orchestrator (`RyeProcessor.updateArtifacts`), together with
models of the external collaborators that the source imports from elsewhere
in the repository (`depTypes`, `TEMPORARY_ERROR`, `getSiblingFileName`).
-/

namespace Rye

/-- Modelled from the spec: the distinguished "temporary/retryable" error
sentinel message, `TEMPORARY_ERROR` from `constants/error-messages`
(not under `src/`). Only its identity (equality with an error's message)
matters to the orchestrator. -/
def TEMPORARY_ERROR : String := "temporary-error"

/-- Modelled from the spec: the `depTypes` table from `pep621/utils`
(not under `src/`). The source switches on `depTypes.ryeDevDependencies`
(the dev-group category); `dependencies` is the direct category and
`optionalDependencies` the optional (extras) group category. Only the
distinctness of the tags matters. -/
def depTypes : List (String × String) :=
  [("dependencies", "project.dependencies"),
   ("optionalDependencies", "project.optional-dependencies"),
   ("ryeDevDependencies", "tool.rye.dev-dependencies")]

/-- The tag the source compares against in `generateCMDs`'s switch. -/
def ryeDevDependenciesTag : String := "tool.rye.dev-dependencies"

/-- The direct-dependency category tag. -/
def dependenciesTag : String := "project.dependencies"

/-- The optional (extras) group category tag. -/
def optionalDependenciesTag : String := "project.optional-dependencies"

/-- One entry of `updatedDeps` (`Upgrade` in the source). The source
dereferences `depName!` and `packageName!` with non-null assertions, so the
embedding keeps them as plain strings. -/
structure Upgrade where
  depType : String
  depName : String
  packageName : String
deriving DecidableEq, Repr

/-- `const ryeUpdateLockCMD = 'rye lock';` (rye.ts line 18). -/
def ryeUpdateLockCMD : String := "rye lock"

/-- `const ryeUpdatePackageCMD = 'rye lock --update';` (rye.ts line 19). -/
def ryeUpdatePackageCMD : String := "rye lock --update"

/-- `addPackageToCMDRecord` (rye.ts lines 209-218). The JS
`Record<string, string[]>` preserves string-key insertion order, so it is
embedded as an ordered association list: a missing key is created with an
empty list, then the package name is pushed onto the key's list. -/
def addPackageToCMDRecord (packagesByCMD : List (String × List String))
    (commandPrefix packageName : String) : List (String × List String) :=
  if packagesByCMD.any (fun p => p.1 = commandPrefix) then
    packagesByCMD.map
      (fun p => if p.1 = commandPrefix then (p.1, p.2 ++ [packageName]) else p)
  else
    packagesByCMD ++ [(commandPrefix, [packageName])]

/-- Splits a character list at every occurrence of `sep`; the result is
always non-empty (splitting the empty list yields one empty piece, matching
JS `''.split('/') = ['']`). -/
def splitChars (sep : Char) : List Char → List (List Char)
  | [] => [[]]
  | c :: cs =>
    match splitChars sep cs with
    | [] => [[c]]
    | r :: rs => if c = sep then [] :: r :: rs else (c :: r) :: rs

/-- JS `String.prototype.split` with a one-character separator, embedded by
structural recursion over the string's characters. -/
def jsSplit (sep : Char) (s : String) : List String :=
  (splitChars sep s.data).map (fun l => { data := l })

/-- The package name a descriptor contributes in `generateCMDs`'s switch:
for `depTypes.ryeDevDependencies`, `dep.depName!.split('/')`'s second
component; for every other `depType`, `dep.packageName!`. A missing second
component (`undefined` in JS) renders as the empty string under
`Array.prototype.join`, hence the `""` default. -/
def contributedName (dep : Upgrade) : String :=
  if dep.depType = ryeDevDependenciesTag then
    (jsSplit '/' dep.depName).getD 1 ""
  else
    dep.packageName

/-- `generateCMDs` (rye.ts lines 180-207): fold every descriptor into the
command record (always under the `ryeUpdatePackageCMD` prefix), then emit
one `"<prefix> <space-joined names>"` string per key in insertion order. -/
def generateCMDs (updatedDeps : List Upgrade) : List String :=
  let packagesByCMD : List (String × List String) :=
    updatedDeps.foldl
      (fun acc dep =>
        addPackageToCMDRecord acc ryeUpdatePackageCMD (contributedName dep))
      []
  packagesByCMD.map (fun p => p.1 ++ " " ++ " ".intercalate p.2)

/-- Joins path components with the `/` separator. -/
def joinPath : List String → String
  | [] => ""
  | [x] => x
  | x :: xs => x ++ "/" ++ joinPath xs

/-- Modelled from the spec: `sibling_path(base_path, new_file_name)` from
`util/fs` (not under `src/`), a pure path derivation that replaces the last
path component of the base path with the new file name. -/
def getSiblingFileName (existingFileNameWithPath otherFileName : String) :
    String :=
  joinPath ((jsSplit '/' existingFileNameWithPath).dropLast ++ [otherFileName])

/-- One element of the `UpdateArtifactsResult[]` the source returns: either a
file-change record (`type: 'addition'` with a path and the new contents, which
`readLocalFile` may also report as absent) or an artifact-error record (a lock
file path plus the failure message as `stderr`). -/
inductive ArtifactsEntry where
  | fileChange (path : String) (contents : Option String)
  | artifactError (lockFile : String) (stderr : String)
deriving DecidableEq, Repr

/-- How the single atomic `await exec(cmds, execOptions)` call behaves in a
run, together with what `readLocalFile` returns for the two lock files
afterwards: either it succeeds and the two lock files re-read as
`postLock`/`postDev`, or it throws an error whose message is `msg`. -/
inductive ExecBehavior where
  | ok (postLock postDev : Option String)
  | err (msg : String)
deriving DecidableEq, Repr

/-- What `updateArtifacts` hands back to its caller: either it throws (only
the `TEMPORARY_ERROR` re-raise path) or it returns `null` or a list of
entries. -/
inductive UpdateOutcome where
  | thrown (msg : String)
  | result (r : Option (List ArtifactsEntry))
deriving DecidableEq, Repr

/-- A run's observable effects: the command list passed to the process runner
(`none` when `exec` was never invoked) and the returned/thrown outcome. -/
structure RunOutput where
  execCmds : Option (List String)
  outcome : UpdateOutcome
deriving DecidableEq, Repr

/-- `RyeProcessor.updateArtifacts` (rye.ts lines 58-177), with the run's
environment made explicit: `preLock`/`preDev` are what `readLocalFile`
returns for the two lock files before execution (`none` = absent), and
`exec` describes the process-runner call's behavior. Tool-constraint
assembly (lines 97-111) is pass-through to `exec`'s options and carries no
decision logic, so it is not part of the embedding. -/
def updateArtifacts (isLockFileMaintenance : Bool) (updatedDeps : List Upgrade)
    (packageFileName : String) (preLock preDev : Option String)
    (exec : ExecBehavior) : RunOutput :=
  let lockFileName := getSiblingFileName packageFileName "requirements.lock"
  let devLockFileName :=
    getSiblingFileName packageFileName "requirements-dev.lock"
  if preLock = none ∧ preDev = none then
    { execCmds := none, outcome := .result none }
  else
    let cmds : List String :=
      if isLockFileMaintenance then [ryeUpdateLockCMD]
      else generateCMDs updatedDeps
    match exec with
    | .err msg =>
      if msg = TEMPORARY_ERROR then
        { execCmds := some cmds, outcome := .thrown msg }
      else
        { execCmds := some cmds,
          outcome := .result (some
            [.artifactError lockFileName msg,
             .artifactError devLockFileName msg]) }
    | .ok postLock postDev =>
      let fileChanges : List ArtifactsEntry :=
        (if preLock ≠ postLock then [.fileChange lockFileName postLock]
         else []) ++
        (if preDev ≠ postDev then [.fileChange devLockFileName postDev]
         else [])
      { execCmds := some cmds,
        outcome := .result (if fileChanges.isEmpty then none
                            else some fileChanges) }

/-- `pat` starts the character list `s`. -/
def startsWithChars : List Char → List Char → Bool
  | [], _ => true
  | _ :: _, [] => false
  | p :: ps, c :: cs => p = c && startsWithChars ps cs

/-- `pat` occurs somewhere inside the character list `s`. -/
def occursInChars (pat : List Char) : List Char → Bool
  | [] => startsWithChars pat []
  | c :: cs => startsWithChars pat (c :: cs) || occursInChars pat cs

/-- `pat` occurs as a contiguous substring of `s`. A command string can only
"carry" a group name if that name occurs in it as a substring. -/
def strContainsSub (pat s : String) : Bool :=
  occursInChars pat.data s.data

/-- Modelled from the spec: the (category, group) key of a descriptor as the
spec's classifier contract describes it — the category tag paired with the
`group_name` recovered from the composite `"<group>/<name>"` identifier for
the grouped categories, and with no group for the direct category. -/
def categoryGroup (dep : Upgrade) : String × String :=
  if dep.depType = ryeDevDependenciesTag ∨
     dep.depType = optionalDependenciesTag then
    (dep.depType, (jsSplit '/' dep.depName).getD 0 "")
  else
    (dep.depType, "")

/-- In the result list, a change record for `path` carrying `contents`
appears (a `null` overall result contains nothing). -/
def changeRecordIn (r : Option (List ArtifactsEntry)) (path : String)
    (contents : Option String) : Prop :=
  ArtifactsEntry.fileChange path contents ∈ r.getD []

/-- An entry is an error record. -/
def isErrorRecord : ArtifactsEntry → Prop
  | .fileChange _ _ => False
  | .artifactError _ _ => True

instance (e : ArtifactsEntry) : Decidable (isErrorRecord e) := by
  cases e <;> simp [isErrorRecord] <;> infer_instance

/-! ## Helper lemmas -/

/-- Once the record holds the single `ryeUpdatePackageCMD` key, every further
descriptor only appends its contributed name to that key's list. -/
theorem foldl_addPackage_const (pfx : String) (deps : List Upgrade) :
    ∀ names : List String,
    deps.foldl
        (fun acc dep => addPackageToCMDRecord acc pfx (contributedName dep))
        [(pfx, names)] =
      [(pfx, names ++ deps.map contributedName)] := by
  induction deps with
  | nil => intro names; simp
  | cons d ds ih =>
    intro names
    have hstep : addPackageToCMDRecord [(pfx, names)] pfx (contributedName d) =
        [(pfx, names ++ [contributedName d])] := by
      simp [addPackageToCMDRecord]
    simp only [List.foldl_cons, hstep, ih]
    simp

/-- `generateCMDs` on the empty upgrade set yields no commands. -/
theorem generateCMDs_nil : generateCMDs [] = [] := rfl

/-- `generateCMDs` on a non-empty upgrade set yields exactly the single
command `"rye lock --update <space-joined contributed names>"`. -/
theorem generateCMDs_ne_nil (deps : List Upgrade) (h : deps ≠ []) :
    generateCMDs deps =
      [ryeUpdatePackageCMD ++ " " ++
        " ".intercalate (deps.map contributedName)] := by
  match deps, h with
  | d :: ds, _ =>
    have h0 : addPackageToCMDRecord [] ryeUpdatePackageCMD
        (contributedName d) = [(ryeUpdatePackageCMD, [contributedName d])] := by
      simp [addPackageToCMDRecord]
    unfold generateCMDs
    simp only [List.foldl_cons, h0, foldl_addPackage_const]
    simp

/-! ## Claim theorems -/

/-- C10: for every upgrade set, `generateCMDs` emits at most one command
string — the empty list for an empty set, and otherwise the single string
built from the one accumulated key `'rye lock --update'` (so no emitted
command carries a group-selection or dev-group-selection flag), whose
package segment space-joins each descriptor's contributed name (the second
`'/'`-split component of `depName` for dev-group descriptors, the
`packageName` field for all others). -/
theorem generateCMDs_single_prefix (deps : List Upgrade) :
    generateCMDs deps =
      if deps.isEmpty then []
      else [ryeUpdatePackageCMD ++ " " ++
        " ".intercalate (deps.map contributedName)] := by
  cases deps with
  | nil => simp [generateCMDs_nil]
  | cons d ds =>
    rw [generateCMDs_ne_nil _ (by simp)]
    simp

/-- C7: a non-empty upgrade set of direct-category descriptors yields
exactly one command string, whose package segment space-joins every
descriptor's `packageName` in the original order. -/
theorem generateCMDs_direct_only (deps : List Upgrade) (hne : deps ≠ [])
    (hdir : ∀ d ∈ deps, d.depType = dependenciesTag) :
    generateCMDs deps =
      [ryeUpdatePackageCMD ++ " " ++
        " ".intercalate (deps.map (fun d => d.packageName))] := by
  rw [generateCMDs_ne_nil deps hne]
  have hmap : deps.map contributedName =
      deps.map (fun d => d.packageName) := by
    apply List.map_congr_left
    intro d hd
    simp only [contributedName, hdir d hd]
    rw [if_neg (by decide)]
  rw [hmap]

/-- Witness for C7 at the concrete direct-only upgrade set
`[dep1, dep2]`. -/
theorem generateCMDs_direct_only_witness :
    (([⟨dependenciesTag, "dep1", "dep1"⟩,
       ⟨dependenciesTag, "dep2", "dep2"⟩] : List Upgrade) ≠ []) ∧
    (∀ d ∈ ([⟨dependenciesTag, "dep1", "dep1"⟩,
       ⟨dependenciesTag, "dep2", "dep2"⟩] : List Upgrade),
        d.depType = dependenciesTag) ∧
    generateCMDs [⟨dependenciesTag, "dep1", "dep1"⟩,
       ⟨dependenciesTag, "dep2", "dep2"⟩] =
      [ryeUpdatePackageCMD ++ " " ++
        " ".intercalate (([⟨dependenciesTag, "dep1", "dep1"⟩,
          ⟨dependenciesTag, "dep2", "dep2"⟩] : List Upgrade).map
            (fun d => d.packageName))] :=
  ⟨by decide, by decide,
   generateCMDs_direct_only _ (by decide) (by decide)⟩

/-- C1 counterexample: the upgrade set mixing a direct descriptor with a
dev-group descriptor has two distinct (category, group) pairs, yet
`generateCMDs` produces a single command string — not one per pair. -/
theorem generateCMDs_pair_count_counterexample :
    (([⟨dependenciesTag, "pkgA", "pkgA"⟩,
       ⟨ryeDevDependenciesTag, "groupA/pkgB", "pkgB"⟩] : List Upgrade).map
         categoryGroup).dedup.length = 2 ∧
    (generateCMDs [⟨dependenciesTag, "pkgA", "pkgA"⟩,
       ⟨ryeDevDependenciesTag, "groupA/pkgB", "pkgB"⟩]).length = 1 := by
  decide

/-- C1 amended: for every upgrade set, the classifier produces at most one
command string (exactly one iff the set is non-empty) — all categories and
groups are merged under the single update prefix, so trivially no package
name appears in more than one command string. -/
theorem generateCMDs_at_most_one_cmd (deps : List Upgrade) :
    (generateCMDs deps).length ≤ 1 ∧
    ((generateCMDs deps).length = 1 ↔ deps ≠ []) := by
  cases deps with
  | nil => simp [generateCMDs_nil]
  | cons d ds =>
    rw [generateCMDs_ne_nil _ (by simp)]
    simp

/-- C2 counterexample: on the dev-group descriptors `groupA/pkgX` and
`groupA/pkgY`, the classifier emits exactly
`"rye lock --update pkgX pkgY"`, and the group name `groupA` does not occur
in that command — so no dev-group-selection flag carrying `groupA` is
present. -/
theorem generateCMDs_dev_group_flag_counterexample :
    generateCMDs [⟨ryeDevDependenciesTag, "groupA/pkgX", "pkgX"⟩,
                  ⟨ryeDevDependenciesTag, "groupA/pkgY", "pkgY"⟩] =
      ["rye lock --update pkgX pkgY"] ∧
    strContainsSub "groupA" "rye lock --update pkgX pkgY" = false := by
  decide

/-- C2 amended: the two `groupA` dev-group descriptors produce the single
command string formed by the base update prefix followed directly by
`pkgX pkgY`, with no group flag in between. -/
theorem generateCMDs_dev_group_single_cmd :
    generateCMDs [⟨ryeDevDependenciesTag, "groupA/pkgX", "pkgX"⟩,
                  ⟨ryeDevDependenciesTag, "groupA/pkgY", "pkgY"⟩] =
      [ryeUpdatePackageCMD ++ " " ++ "pkgX pkgY"] := by
  decide

/-- C3: when execution fails with a message other than the temporary-error
sentinel (and the run got past the both-files-absent guard), the result is
exactly two error records — first for the primary lock file path, then for
the dev lock file path — both carrying the failure message verbatim. -/
theorem updateArtifacts_exec_error_records (m : Bool) (deps : List Upgrade)
    (pf : String) (preL preD : Option String) (msg : String)
    (hpre : ¬(preL = none ∧ preD = none)) (hmsg : msg ≠ TEMPORARY_ERROR) :
    (updateArtifacts m deps pf preL preD (.err msg)).outcome =
      .result (some
        [.artifactError (getSiblingFileName pf "requirements.lock") msg,
         .artifactError (getSiblingFileName pf "requirements-dev.lock")
           msg]) := by
  unfold updateArtifacts
  rw [if_neg hpre]
  simp [hmsg]

/-- Witness for C3: a run with both lock files present whose execution
fails with "disk full" yields the two error records. -/
theorem updateArtifacts_exec_error_records_witness :
    (¬((some "lock" : Option String) = none ∧
       (some "dev" : Option String) = none)) ∧
    "disk full" ≠ TEMPORARY_ERROR ∧
    (updateArtifacts false [] "pyproject.toml" (some "lock") (some "dev")
        (.err "disk full")).outcome =
      .result (some
        [.artifactError
           (getSiblingFileName "pyproject.toml" "requirements.lock")
           "disk full",
         .artifactError
           (getSiblingFileName "pyproject.toml" "requirements-dev.lock")
           "disk full"]) :=
  ⟨by decide, by decide,
   updateArtifacts_exec_error_records false [] "pyproject.toml"
     (some "lock") (some "dev") "disk full" (by decide) (by decide)⟩

/-- C4: when execution fails with the temporary-error sentinel message (and
the run got past the both-files-absent guard), the error is re-thrown
unchanged — never converted into per-file error records. -/
theorem updateArtifacts_temporary_rethrow (m : Bool) (deps : List Upgrade)
    (pf : String) (preL preD : Option String) (msg : String)
    (hpre : ¬(preL = none ∧ preD = none)) (hmsg : msg = TEMPORARY_ERROR) :
    (updateArtifacts m deps pf preL preD (.err msg)).outcome =
      .thrown msg := by
  unfold updateArtifacts
  rw [if_neg hpre]
  simp [hmsg]

/-- Witness for C4: a run with both lock files present whose execution
raises the sentinel re-throws it. -/
theorem updateArtifacts_temporary_rethrow_witness :
    (¬((some "lock" : Option String) = none ∧
       (some "dev" : Option String) = none)) ∧
    TEMPORARY_ERROR = TEMPORARY_ERROR ∧
    (updateArtifacts false [] "pyproject.toml" (some "lock") (some "dev")
        (.err TEMPORARY_ERROR)).outcome = .thrown TEMPORARY_ERROR :=
  ⟨by decide, rfl,
   updateArtifacts_temporary_rethrow false [] "pyproject.toml"
     (some "lock") (some "dev") TEMPORARY_ERROR (by decide) rfl⟩

/-- C5: when both lock files are absent before execution, the run
terminates with the absent (`null`) result and the process runner is never
invoked, whatever the mode, upgrade set or runner behavior. -/
theorem updateArtifacts_both_absent (m : Bool) (deps : List Upgrade)
    (pf : String) (exec : ExecBehavior) :
    updateArtifacts m deps pf none none exec =
      { execCmds := none, outcome := .result none } := by
  unfold updateArtifacts
  simp

/-- C6: in lock-file-maintenance mode (with at least one lock file
present), the process runner receives exactly the single full-regeneration
command `'rye lock'`, regardless of the upgrade set — the classifier is
never consulted. -/
theorem updateArtifacts_maintenance_single_cmd (deps : List Upgrade)
    (pf : String) (preL preD : Option String) (exec : ExecBehavior)
    (hpre : ¬(preL = none ∧ preD = none)) :
    (updateArtifacts true deps pf preL preD exec).execCmds =
      some [ryeUpdateLockCMD] := by
  unfold updateArtifacts
  rw [if_neg hpre]
  cases exec with
  | ok postLock postDev => simp
  | err msg =>
    by_cases hmsg : msg = TEMPORARY_ERROR <;> simp [hmsg]

/-- Witness for C6: a maintenance run over a three-descriptor upgrade set
still issues only `'rye lock'`. -/
theorem updateArtifacts_maintenance_single_cmd_witness :
    (¬((some "lock" : Option String) = none ∧
       (some "dev" : Option String) = none)) ∧
    (updateArtifacts true
        [⟨dependenciesTag, "dep1", "dep1"⟩,
         ⟨dependenciesTag, "dep2", "dep2"⟩,
         ⟨ryeDevDependenciesTag, "g/dep3", "dep3"⟩]
        "pyproject.toml" (some "lock") (some "dev")
        (.ok (some "lock") (some "dev"))).execCmds =
      some [ryeUpdateLockCMD] :=
  ⟨by decide,
   updateArtifacts_maintenance_single_cmd
     [⟨dependenciesTag, "dep1", "dep1"⟩,
      ⟨dependenciesTag, "dep2", "dep2"⟩,
      ⟨ryeDevDependenciesTag, "g/dep3", "dep3"⟩]
     "pyproject.toml" (some "lock") (some "dev")
     (.ok (some "lock") (some "dev")) (by decide)⟩

/-- Appending to a common left part is cancellative on strings. -/
theorem string_append_cancel_left {p a b : String} (h : p ++ a = p ++ b) :
    a = b := by
  have hd := congrArg String.data h
  simp at hd
  exact String.ext hd

/-- `joinPath` is injective in the last path component. -/
theorem joinPath_last_inj (dir : List String) {a b : String}
    (h : joinPath (dir ++ [a]) = joinPath (dir ++ [b])) : a = b := by
  induction dir with
  | nil => simpa [joinPath] using h
  | cons x xs ih =>
    cases xs with
    | nil =>
      simp only [List.cons_append, List.nil_append, joinPath] at h
      exact string_append_cancel_left h
    | cons y ys =>
      simp only [List.cons_append, joinPath] at h
      exact ih (string_append_cancel_left h)

/-- Two sibling paths of the same base agree only on equal file names. -/
theorem getSiblingFileName_inj (pf : String) {a b : String}
    (h : getSiblingFileName pf a = getSiblingFileName pf b) : a = b :=
  joinPath_last_inj _ h

/-- The primary and the dev lock file paths of a run are distinct. -/
theorem lockFile_ne_devLockFile (pf : String) :
    getSiblingFileName pf "requirements.lock" ≠
      getSiblingFileName pf "requirements-dev.lock" := fun h =>
  absurd (getSiblingFileName_inj pf h) (by decide)

/-- C8: on a successful run (past the both-files-absent guard), the outcome
is a returned result in which, for each of the two lock files
independently, a change record for that file's path carrying contents `c`
appears iff the post-run content differs from the pre-run content and `c`
is the post-run content; the overall result is absent (`null`) iff neither
file's content changed. -/
theorem updateArtifacts_change_records (m : Bool) (deps : List Upgrade)
    (pf : String) (preL preD postL postD : Option String)
    (hpre : ¬(preL = none ∧ preD = none)) :
    ∃ r, (updateArtifacts m deps pf preL preD
        (.ok postL postD)).outcome = .result r ∧
      (∀ c, changeRecordIn r (getSiblingFileName pf "requirements.lock") c ↔
        (preL ≠ postL ∧ c = postL)) ∧
      (∀ c, changeRecordIn r
          (getSiblingFileName pf "requirements-dev.lock") c ↔
        (preD ≠ postD ∧ c = postD)) ∧
      (r = none ↔ (preL = postL ∧ preD = postD)) := by
  have hne := lockFile_ne_devLockFile pf
  have hne' := Ne.symm hne
  unfold updateArtifacts
  rw [if_neg hpre]
  refine ⟨_, rfl, ?_, ?_, ?_⟩ <;>
    by_cases hL : preL = postL <;> by_cases hD : preD = postD <;>
      simp [changeRecordIn, hL, hD, hne, hne']

/-- Witness for C8: a run where only the primary lock file's content
changed. -/
theorem updateArtifacts_change_records_witness :
    (¬((some "old" : Option String) = none ∧
       (some "dev" : Option String) = none)) ∧
    ∃ r, (updateArtifacts false [] "pyproject.toml" (some "old")
        (some "dev") (.ok (some "new") (some "dev"))).outcome =
          .result r ∧
      (∀ c, changeRecordIn r
          (getSiblingFileName "pyproject.toml" "requirements.lock") c ↔
        ((some "old" : Option String) ≠ some "new" ∧ c = some "new")) ∧
      (∀ c, changeRecordIn r
          (getSiblingFileName "pyproject.toml" "requirements-dev.lock") c ↔
        ((some "dev" : Option String) ≠ some "dev" ∧ c = some "dev")) ∧
      (r = none ↔ ((some "old" : Option String) = some "new" ∧
        (some "dev" : Option String) = some "dev")) :=
  ⟨by decide,
   updateArtifacts_change_records false [] "pyproject.toml" (some "old")
     (some "dev") (some "new") (some "dev") (by decide)⟩

/-- C9 counterexample: a run in which exactly one lock file (the primary)
is absent before execution does act — the process runner is invoked with
the targeted update command, and a change record for the now-present
primary lock file is returned. -/
theorem updateArtifacts_one_absent_counterexample :
    ((none : Option String) = none ∧
     (some "test dev content" : Option String) ≠ none) ∧
    updateArtifacts false [⟨dependenciesTag, "dep1", "dep1"⟩]
        "pyproject.toml" none (some "test dev content")
        (.ok (some "new lock") (some "test dev content")) =
      { execCmds := some ["rye lock --update dep1"],
        outcome := .result (some
          [.fileChange "requirements.lock" (some "new lock")]) } := by
  decide

/-- C9 amended: when exactly one of the two lock files is absent before
execution, the run proceeds rather than aborting — the process runner is
invoked, and a successful execution returns a result that contains no
error record (only change records for whichever files changed, possibly
none). -/
theorem updateArtifacts_one_absent_proceeds (m : Bool) (deps : List Upgrade)
    (pf : String) (preL preD postL postD : Option String)
    (h : (preL = none ∧ preD ≠ none) ∨ (preL ≠ none ∧ preD = none)) :
    ((updateArtifacts m deps pf preL preD
        (.ok postL postD)).execCmds ≠ none) ∧
    ∃ r, (updateArtifacts m deps pf preL preD
        (.ok postL postD)).outcome = .result r ∧
      ∀ e ∈ r.getD [], ¬ isErrorRecord e := by
  have hpre : ¬(preL = none ∧ preD = none) := by
    rcases h with ⟨h1, h2⟩ | ⟨h1, h2⟩ <;> simp [h1, h2]
  unfold updateArtifacts
  rw [if_neg hpre]
  refine ⟨by simp, _, rfl, ?_⟩
  by_cases hL : preL = postL <;> by_cases hD : preD = postD <;>
    simp [hL, hD, isErrorRecord]

/-- Witness for C9 amended: the dev lock file alone exists; the run invokes
the runner and returns no error record. -/
theorem updateArtifacts_one_absent_proceeds_witness :
    (((none : Option String) = none ∧
      (some "dev" : Option String) ≠ none) ∨
     ((none : Option String) ≠ none ∧
      (some "dev" : Option String) = none)) ∧
    ((updateArtifacts false [] "pyproject.toml" none (some "dev")
        (.ok (some "new") (some "dev"))).execCmds ≠ none) ∧
    ∃ r, (updateArtifacts false [] "pyproject.toml" none (some "dev")
        (.ok (some "new") (some "dev"))).outcome = .result r ∧
      ∀ e ∈ r.getD [], ¬ isErrorRecord e :=
  ⟨by decide,
   updateArtifacts_one_absent_proceeds false [] "pyproject.toml" none
     (some "dev") (some "new") (some "dev") (by decide)⟩

end Rye





